import Mathlib

/-!
Verification development for the ATS resume-parsing and match-scoring service
(src/app.py and src/models/nlp_utils.py).

The Python source is shallowly embedded: pure text-processing helpers become
executable Lean functions over `String`/`List Char`; calls into external
libraries (dateutil, difflib, the re module where a search result only feeds
control flow) are abstracted as explicit oracle parameters, so the theorems
hold for every behaviour of those libraries; Python floats are modelled as
rationals; fallible operations return `Option`.
-/

namespace Ats

/-! ## Basic Python string semantics -/

/-- Python whitespace (str.strip default set and the re token for spaces). -/
def isPySpace (c : Char) : Bool :=
  c = ' ' || c = '\t' || c = '\n' || c = '\r' || c = '\x0b' || c = '\x0c'

/-- ASCII word character, the re word class used by the source patterns. -/
def isWordChar (c : Char) : Bool := c.isAlphanum || c = '_'

def isDigitChar (c : Char) : Bool := c.isDigit

def lowerChars (l : List Char) : List Char := l.map Char.toLower

/-- Python str.lower (ASCII fragment, sufficient for the source lexicons). -/
def strLower (s : String) : String := ⟨lowerChars s.data⟩

def stripChars (l : List Char) : List Char :=
  ((l.dropWhile isPySpace).reverse.dropWhile isPySpace).reverse

/-- Python str.strip() with no argument. -/
def pyStrip (s : String) : String := ⟨stripChars s.data⟩

/-- Substring occurrence on character lists: some suffix of `hay` starts with
`needle`.  This is Python `needle in hay`. -/
def containsSub (hay needle : List Char) : Bool :=
  (List.range (hay.length + 1)).any fun i => needle.isPrefixOf (hay.drop i)

/-- Python membership test `needle in hay` on strings. -/
def strContains (hay needle : String) : Bool := containsSub hay.data needle.data

/-- Split a character list at every separator character (separators dropped,
empty parts kept) - the semantics of re.split on a character class. -/
def splitOnPred (p : Char → Bool) : List Char → List (List Char)
  | [] => [[]]
  | c :: cs =>
    if p c then [] :: splitOnPred p cs
    else
      match splitOnPred p cs with
      | [] => [[c]]
      | h :: t => (c :: h) :: t

/-- Python s.split(chr(10)): split on newline, keeping empty parts. -/
def splitLines (s : String) : List String :=
  (splitOnPred (fun c => c = '\n') s.data).map (⟨·⟩)

/-- Helper for maximal-run splitting (used for str.split() and word tokens). -/
def splitRunsAux (p : Char → Bool) (c : Char) (acc : List (List Char) × List Char) :
    List (List Char) × List Char :=
  if p c then (acc.1, c :: acc.2)
  else ((if acc.2 = [] then acc.1 else acc.2 :: acc.1), [])

/-- Maximal runs of characters satisfying `p`, in order, empties dropped. -/
def splitRuns (p : Char → Bool) (l : List Char) : List (List Char) :=
  let r := l.foldr (splitRunsAux p) ([], [])
  if r.2 = [] then r.1 else r.2 :: r.1

/-- Python str.split() with no argument: whitespace-separated words. -/
def pySplit (s : String) : List String :=
  (splitRuns (fun c => !isPySpace c) s.data).map (⟨·⟩)

/-- re.findall of word tokens of length at least three (maximal word runs). -/
def wordTokensMin3 (s : String) : List String :=
  ((splitRuns isWordChar s.data).filter fun w => w.length ≥ 3).map (⟨·⟩)

/-- Python truthiness of an optional string field (None and "" are falsy). -/
def truthyOpt : Option String → Bool
  | none => false
  | some s => s ≠ ""

/-! ## models/nlp_utils.py : skill matching -/

/-- Oracles for the two floating-point/difflib comparisons inside
skill_similarity.  `ge70pct m n` models the Python float test
`m >= n * 0.7`; `ratioGt85 a b` models
`SequenceMatcher(None, a, b).ratio() > 0.85`. -/
structure SimOracles where
  ge70pct : Nat → Nat → Bool
  ratioGt85 : String → String → Bool

/-- The fixed alias table of skill_similarity (nlp_utils.py lines 34-58). -/
def tech_aliases : List (String × List String) := [
  ("javascript", ["js", "ecmascript"]),
  ("js", ["javascript"]),
  ("typescript", ["ts"]),
  ("ts", ["typescript"]),
  ("react", ["reactjs", "react.js"]),
  ("node", ["nodejs", "node.js"]),
  ("python", ["py", "python3"]),
  ("c++", ["cpp", "cplusplus"]),
  ("c#", ["csharp", "c-sharp"]),
  ("aws", ["amazon web services"]),
  ("gcp", ["google cloud platform", "google cloud"]),
  ("docker", ["containerization"]),
  ("kubernetes", ["k8s"]),
  ("postgresql", ["postgres"]),
  ("mongodb", ["mongo"]),
  ("mysql", ["my sql"]),
  ("html5", ["html"]),
  ("css3", ["css"]),
  ("restful", ["rest api", "rest"]),
  ("graphql", ["graph ql"]),
  ("git", ["version control"]),
  ("jenkins", ["ci/cd"]),
  ("angular", ["angularjs"])]

/-- Python s.replace(c, "") for a single character. -/
def removeChar (c : Char) (s : String) : String := ⟨s.data.filter (· ≠ c)⟩

/-- Python s.replace(c, r) for a single character replaced by a string. -/
def replaceCharWith (c : Char) (r : String) (s : String) : String :=
  ⟨s.data.flatMap fun d => if d = c then r.data else [d]⟩

/-- skill_similarity (nlp_utils.py lines 8-84).  Method 1: direct substring;
method 2: punctuation variations; method 3: alias table both directions;
method 4: multi-word skills need 70 percent of words present (float test via
oracle); method 5: fuzzy single-word match via the SequenceMatcher oracle. -/
def skill_similarity (O : SimOracles) (skill resume_text : String) : Bool :=
  let skill_lower := pyStrip (strLower skill)
  let resume_lower := strLower resume_text
  if strContains resume_lower skill_lower then true
  else if [skill_lower,
           removeChar '.' skill_lower,
           removeChar ' ' skill_lower,
           removeChar '-' skill_lower,
           replaceCharWith '+' "plus" skill_lower,
           replaceCharWith '#' "sharp" skill_lower].any
            (fun v => strContains resume_lower v) then true
  else if ((tech_aliases.lookup skill_lower).getD []).any
            (fun a => strContains resume_lower a) then true
  else if tech_aliases.any
            (fun p => p.2.contains skill_lower && strContains resume_lower p.1) then true
  else
    let skill_words := pySplit skill_lower
    if skill_words.length > 1 then
      O.ge70pct
        ((skill_words.filter fun w => strContains resume_lower w && decide (w.data.length > 2)).length)
        skill_words.length
    else if skill_lower.data.length > 3 then
      (wordTokensMin3 resume_lower).any fun w => O.ratioGt85 skill_lower w
    else false

/-- calculate_skill_score (nlp_utils.py lines 86-101): empty requirement list
scores 0; otherwise partition the skills by skill_similarity and score the
matched fraction times 100. -/
def calculate_skill_score (O : SimOracles) (job_skills : List String) (resume_text : String) :
    ℚ × List String × List String :=
  if job_skills = [] then (0, [], [])
  else
    let p := job_skills.partition fun s => skill_similarity O s resume_text
    (((p.1.length : ℚ) / (job_skills.length : ℚ)) * 100, p.1, p.2)

/-- calculate_tech_fit (nlp_utils.py lines 237-252): identical loop, but an
empty tool list scores 100. -/
def calculate_tech_fit (O : SimOracles) (job_tools : List String) (resume_text : String) :
    ℚ × List String × List String :=
  if job_tools = [] then (100, [], [])
  else
    let p := job_tools.partition fun t => skill_similarity O t resume_text
    (((p.1.length : ℚ) / (job_tools.length : ℚ)) * 100, p.1, p.2)

/-! ## models/nlp_utils.py : experience scoring -/

/-- calculate_experience_score (nlp_utils.py lines 122-143).  The regex-based
years extraction (extract_experience, lines 103-120) is abstracted as the
`extract` parameter; the tier logic is concrete.  An empty job-experience
string is falsy in Python, so the requirement defaults to 0 for it. -/
def calculate_experience_score (extract : String → ℕ) (job_experience resume_text : String) :
    ℕ × String :=
  let job_exp := if job_experience ≠ "" then extract job_experience else 0
  let resume_exp := extract resume_text
  if job_exp = 0 then
    (100, "No specific experience requirement mentioned.")
  else if resume_exp ≥ job_exp then
    (100, "Candidate meets/exceeds required experience (" ++ toString resume_exp ++
      "+ years vs " ++ toString job_exp ++ "+ required).")
  else if resume_exp ≥ job_exp - 1 then
    (75, "Candidate has close experience (" ++ toString resume_exp ++
      "+ years vs " ++ toString job_exp ++ "+ required).")
  else if resume_exp ≥ job_exp - 2 then
    (50, "Candidate has some experience (" ++ toString resume_exp ++
      "+ years vs " ++ toString job_exp ++ "+ required).")
  else
    (25, "Candidate has limited experience (" ++ toString resume_exp ++
      "+ years vs " ++ toString job_exp ++ "+ required).")

/-- The tier table exactly as the specification words it (claim C3):
requirement 0 scores 100; candidate at least required scores 100;
required minus one up to required scores 75; required minus two up to
required minus one scores 50; anything lower scores 25. -/
def experienceTierSpec (required candidate : ℕ) : ℕ :=
  if required = 0 then 100
  else if candidate ≥ required then 100
  else if required - 1 ≤ candidate then 75
  else if required - 2 ≤ candidate then 50
  else 25

/-! ## models/nlp_utils.py : qualification scoring

The degree-level patterns of calculate_qualification_score are simple regexes
built from literals, an optional dot, optional whitespace and word
boundaries.  They are embedded exactly through a tiny pattern language. -/

/-- One regex atom of the degree patterns: a literal character, an optional
character (the regex token dot-question), optional whitespace (the regex
token backslash-s-star), or a word boundary. -/
inductive RAtom where
  | lit : Char → RAtom
  | opt : Char → RAtom
  | ws : RAtom
  | wb : RAtom
deriving DecidableEq

def optWord : Option Char → Bool
  | none => false
  | some c => isWordChar c

/-- Word-boundary test between the previous character and the rest. -/
def atBoundary (prev : Option Char) (cs : List Char) : Bool :=
  optWord prev != optWord cs.head?

/-- All states reachable by consuming zero or more whitespace characters:
the pair of the last consumed character and the remaining input. -/
def wsCandidates (prev : Option Char) : List Char → List (Option Char × List Char)
  | [] => [(prev, [])]
  | c :: rest =>
    (prev, c :: rest) :: (if isPySpace c then wsCandidates (some c) rest else [])

/-- Match a pattern at the current position, tracking the previous character
for word boundaries.  Backtracking over optional atoms and whitespace is by
explicit disjunction, so the function is the full match semantics of the
source patterns. -/
def matchAtoms : List RAtom → Option Char → List Char → Bool
  | [], _, _ => true
  | .wb :: rest, prev, cs => atBoundary prev cs && matchAtoms rest prev cs
  | .lit _ :: _, _, [] => false
  | .lit a :: rest, _, c :: cs => (c = a) && matchAtoms rest (some c) cs
  | .opt _ :: rest, prev, [] => matchAtoms rest prev []
  | .opt a :: rest, prev, c :: cs =>
    matchAtoms rest prev (c :: cs) || ((c = a) && matchAtoms rest (some c) cs)
  | .ws :: rest, prev, cs => (wsCandidates prev cs).any fun pc => matchAtoms rest pc.1 pc.2

/-- re.search semantics: try to match at every position of the input. -/
def searchAtoms (atoms : List RAtom) : Option Char → List Char → Bool
  | prev, [] => matchAtoms atoms prev []
  | prev, c :: rest =>
    matchAtoms atoms prev (c :: rest) || searchAtoms atoms (some c) rest

def litPat (s : String) : List RAtom := s.data.map RAtom.lit

/-- A keyword between word boundaries. -/
def wordPat (s : String) : List RAtom := RAtom.wb :: litPat s ++ [RAtom.wb]

/-- Bachelor family patterns (nlp_utils.py lines 159-163). -/
def bachelorPats : List (List RAtom) := [
  wordPat "bachelor",
  [.wb, .lit 'b', .opt '.', .ws, .lit 'a', .opt '.', .wb],
  [.wb, .lit 'b', .opt '.', .ws, .lit 's', .opt '.', .wb],
  [.wb, .lit 'b', .opt '.', .ws] ++ litPat "tech" ++ [.wb],
  [.wb, .lit 'b', .opt '.', .ws] ++ litPat "sc" ++ [.opt '.', .wb],
  [.wb, .lit 'b', .opt '.', .ws] ++ litPat "eng" ++ [.opt '.', .wb],
  wordPat "undergraduate"]

/-- Master family patterns (nlp_utils.py lines 164-168). -/
def masterPats : List (List RAtom) := [
  wordPat "master",
  [.wb, .lit 'm', .opt '.', .ws, .lit 'a', .opt '.', .wb],
  [.wb, .lit 'm', .opt '.', .ws, .lit 's', .opt '.', .wb],
  [.wb, .lit 'm', .opt '.', .ws] ++ litPat "tech" ++ [.wb],
  [.wb, .lit 'm', .opt '.', .ws] ++ litPat "sc" ++ [.opt '.', .wb],
  [.wb, .lit 'm', .opt '.', .ws] ++ litPat "eng" ++ [.opt '.', .wb],
  wordPat "mba",
  wordPat "graduate"]

/-- PhD family patterns (nlp_utils.py lines 169-171). -/
def phdPats : List (List RAtom) := [
  wordPat "phd",
  [.wb, .lit 'p', .lit 'h', .opt '.', .ws, .lit 'd', .opt '.', .wb],
  wordPat "doctorate",
  wordPat "doctoral"]

/-- Diploma family patterns (nlp_utils.py lines 172-174). -/
def diplomaPats : List (List RAtom) := [
  wordPat "diploma",
  wordPat "certificate",
  [.wb] ++ litPat "cert" ++ [.opt '.', .wb]]

/-- The degree_patterns table in source (dict) order. -/
def degree_patterns : List (String × List (List RAtom)) :=
  [("bachelor", bachelorPats), ("master", masterPats), ("phd", phdPats), ("diploma", diplomaPats)]

/-- The field-of-study vocabulary (nlp_utils.py lines 185-188). -/
def fields : List String :=
  ["computer", "software", "engineering", "science", "technology",
   "business", "management", "information", "mathematics", "physics"]

/-- The generic education vocabulary (nlp_utils.py lines 198-201). -/
def education_keywords : List String :=
  ["university", "college", "institute", "school", "education",
   "degree", "graduated", "studied"]

/-- The family loop of calculate_qualification_score: the first degree family
whose name occurs in the requirement and one of whose patterns matches the
resume. -/
def degreeLevelHit (job_quali resume_lower : String) : Option String :=
  degree_patterns.findSome? fun fam =>
    if strContains job_quali fam.1 && fam.2.any (fun p => searchAtoms p none resume_lower.data) then
      some fam.1
    else none

/-- calculate_qualification_score (nlp_utils.py lines 145-206).  The
requirement and resume are lowered once in the source; the lowering is
inlined here.  The join order of the common-fields explanation follows the
vocabulary order (Python iterates a set there, whose order is unspecified;
no claim depends on that string). -/
def calculate_qualification_score (job_qualification resume_text : String) : ℕ × String :=
  if job_qualification = "" ∨ pyStrip job_qualification = "" then
    (100, "No specific qualification requirement.")
  else if strContains (strLower resume_text) (strLower job_qualification) then
    (100, "Perfect qualification match found.")
  else
    match degreeLevelHit (strLower job_qualification) (strLower resume_text) with
    | some dt => (80, "Matching " ++ dt ++ " level qualification found.")
    | none =>
      if (fields.filter fun f => strContains (strLower job_qualification) f) ∩
          (fields.filter fun f => strContains (strLower resume_text) f) ≠ [] then
        (60, "Related field qualification found: " ++
          String.intercalate ", "
            ((fields.filter fun f => strContains (strLower job_qualification) f) ∩
              (fields.filter fun f => strContains (strLower resume_text) f)) ++ ".")
      else if education_keywords.any (fun k => strContains (strLower resume_text) k) then
        (40, "Some educational background found.")
      else
        (20, "No matching qualification found for requirement: " ++ job_qualification ++ ".")

/-- Spec-side restatement of the qualification cascade, written from the
wording of claim C4: exact substring 100, degree family 80, field overlap
60, generic education keyword 40, otherwise 20, empty requirement 100. -/
def qualificationSpecScore (requirement resume : String) : ℕ :=
  if pyStrip requirement = "" then 100
  else if strContains (strLower resume) (strLower requirement) then 100
  else if degree_patterns.any (fun fam =>
      strContains (strLower requirement) fam.1 &&
        fam.2.any fun p => searchAtoms p none (strLower resume).data) then 80
  else if fields.any (fun f =>
      strContains (strLower requirement) f && strContains (strLower resume) f) then 60
  else if education_keywords.any (fun k => strContains (strLower resume) k) then 40
  else 20

/-! ## app.py : entry records

The dictionaries built by the parsers have a fixed key set; they are embedded
as structures with one field per key.  Optional string values model fields
that Python sets to None. -/

structure EducationEntry where
  institution : String
  degree : String
  field_of_study : String
  start_date : Option String
  end_date : Option String
  current : Bool
  description : String
  gpa : String
  activities : String
deriving DecidableEq

structure ExperienceEntry where
  company : String
  position : String
  location : String
  start_date : Option String
  end_date : Option String
  current : Bool
  description : String
  skills : List String
  employment_type : String
deriving DecidableEq

/-! ## app.py : date parsing -/

/-- re.match of the pattern word-chars, spaces, four digits (anchored at the
start).  Word and space classes are disjoint, so the greedy decomposition is
the full backtracking semantics. -/
def fourDigitsAt (cs : List Char) : Bool :=
  decide ((cs.take 4).length = 4) && (cs.take 4).all isDigitChar

def matchWordSpaceYear (s : String) : Bool :=
  let w := s.data.takeWhile isWordChar
  let r1 := s.data.dropWhile isWordChar
  let sp := r1.takeWhile isPySpace
  let r2 := r1.dropWhile isPySpace
  decide (w ≠ []) && decide (sp ≠ []) && fourDigitsAt r2

/-- re.match of four leading digits. -/
def leadingYear (s : String) : Bool := fourDigitsAt s.data

/-- parse_single_date (app.py lines 812-828).  The dateutil call
date_parser.parse followed by strftime is the oracle `dp`; a library
exception is modelled by `dp` returning none (the bare except returns None).
Empty input and tokens containing present or current (case-insensitive)
return none before any parsing. -/
def parse_single_date (dp : String → Option String) (date_str : String) : Option String :=
  if date_str = "" ∨ strContains (strLower date_str) "present" = true ∨
      strContains (strLower date_str) "current" = true then
    none
  else if matchWordSpaceYear date_str then dp date_str
  else if leadingYear date_str then some (date_str ++ "-01-01")
  else dp date_str

def isDashChar (c : Char) : Bool := c = '-' || c = '–' || c = '—'

/-- re.split on the dash character class of parse_date_range. -/
def splitOnDashes (s : String) : List String :=
  (splitOnPred isDashChar s.data).map (⟨·⟩)

/-- parse_date_range (app.py lines 791-810). -/
def parse_date_range (dp : String → Option String) (date_str : String) :
    Option String × Option String × Bool :=
  if date_str = "" then (none, none, false)
  else
    let current := strContains (strLower date_str) "present" ||
      strContains (strLower date_str) "current"
    let parts := splitOnDashes date_str
    let start_date :=
      if parts.length ≥ 1 then parse_single_date dp (pyStrip (parts.getD 0 "")) else none
    let end_date :=
      if parts.length ≥ 2 ∧ current = false then
        parse_single_date dp (pyStrip (parts.getD 1 ""))
      else none
    (start_date, end_date, current)

/-! ## Model of the dateutil month-year parse

dateutil.parser.parse is an external library.  Its documented behaviour on a
month-name plus year token: fields absent from the input are taken from the
default datetime, which is the current date, with the day clamped to the
length of the parsed month.  The current day of month is the `today_day`
parameter.  strftime percent-Y percent-m percent-d zero-pads the fields. -/

def monthTable : List (String × ℕ) :=
  [("january", 1), ("february", 2), ("march", 3), ("april", 4), ("may", 5), ("june", 6),
   ("july", 7), ("august", 8), ("september", 9), ("october", 10), ("november", 11),
   ("december", 12)]

/-- A month token matches its full name or the three-letter abbreviation. -/
def monthOfToken (tok : String) : Option ℕ :=
  (monthTable.find? fun m => tok = m.1 || tok.data = m.1.data.take 3).map (·.2)

def natOfDigits (l : List Char) : ℕ := l.foldl (fun n c => n * 10 + (c.toNat - 48)) 0

def yearOfToken (tok : String) : Option ℕ :=
  if decide (tok.data.length = 4) && tok.data.all isDigitChar then some (natOfDigits tok.data)
  else none

def isLeapYear (y : ℕ) : Bool := (y % 4 = 0 && y % 100 ≠ 0) || y % 400 = 0

def daysInMonth (y m : ℕ) : ℕ :=
  if m = 2 then (if isLeapYear y then 29 else 28)
  else if m = 4 ∨ m = 6 ∨ m = 9 ∨ m = 11 then 30
  else 31

def pad2 (n : ℕ) : String := if n < 10 then "0" ++ toString n else toString n

def pad4 (n : ℕ) : String :=
  if n < 10 then "000" ++ toString n
  else if n < 100 then "00" ++ toString n
  else if n < 1000 then "0" ++ toString n
  else toString n

/-- Modelled dependency: dateutil.parser.parse on a month-name year token,
composed with strftime, with the day of month defaulting to the current day
(`today_day`) clamped to the month length.  Tokens of any other shape are
outside this model and behave as a parse failure. -/
def dateutil_parse_month_year (today_day : ℕ) (s : String) : Option String :=
  match pySplit (strLower (pyStrip s)) with
  | [mTok, yTok] =>
    match monthOfToken mTok, yearOfToken yTok with
    | some m, some y =>
      some (pad4 y ++ "-" ++ pad2 m ++ "-" ++ pad2 (min today_day (daysInMonth y m)))
    | _, _ => none
  | _ => none

/-- An ISO calendar date string: four digits, dash, two digits, dash, two
digits (the shape the specification calls ISO format). -/
def isIsoFormat (s : String) : Bool :=
  match s.data with
  | [y1, y2, y3, y4, s1, m1, m2, s2, d1, d2] =>
    isDigitChar y1 && isDigitChar y2 && isDigitChar y3 && isDigitChar y4 &&
      s1 = '-' && isDigitChar m1 && isDigitChar m2 && s2 = '-' &&
      isDigitChar d1 && isDigitChar d2
  | _ => false

/-- A date oracle that always fails, for concrete instantiations. -/
def dpNone : String → Option String := fun _ => none

/-! ## app.py : extract_job_entries (lines 638-710)

The regex searches that locate dates, titles and companies inside a block
only feed values into the control flow; they are abstracted as oracles so the
start-date invariant is proved for every behaviour of the re module.  The
control flow around them - the range/single-date preference, the present or
current flag, the bare-year fallback, the skip of blocks with no recoverable
date, and the record assembly - is concrete. -/

structure JobOracles where
  /-- re.split on blank lines and bullets (line 655). -/
  splitBlocks : String → List String
  /-- re.search of RANGE_RGX: group 1 and group 2 (line 662). -/
  rangeSearch : String → Option (String × String)
  /-- re.search of DATE_RGX: group 0 (line 663). -/
  dateSearch : String → Option String
  /-- re.search of a bare four-digit year: group 1 (line 680). -/
  yearSearch : String → Option String
  /-- re.match of the leading capitalized title phrase (line 688). -/
  titleMatch : String → Option String
  /-- re.search of the company pattern: group 1 (lines 690-691). -/
  companySearch : String → Option String
  /-- extract_skills_from_description (lines 772-789). -/
  skillsFromDesc : String → List String
  /-- date_parser.parse composed with strftime, as in parse_single_date. -/
  dp : String → Option String

/-- re.match of present-or-current on the range end token (line 671):
a case-insensitive prefix. -/
def presentOrCurrentStart (s : String) : Bool :=
  ("present").data.isPrefixOf (strLower s).data ||
    ("current").data.isPrefixOf (strLower s).data

/-- Lines 661-676: locate dates.  Returns (start, end, current) before the
bare-year fallback. -/
def blockDates (O : JobOracles) (blk : String) : Option String × Option String × Bool :=
  match O.rangeSearch blk with
  | some (start_raw, end_raw) =>
    if presentOrCurrentStart end_raw then
      (parse_single_date O.dp start_raw, none, true)
    else
      (parse_single_date O.dp start_raw, parse_single_date O.dp end_raw, false)
  | none =>
    match O.dateSearch blk with
    | some d => (parse_single_date O.dp d, none, false)
    | none => (none, none, false)

/-- Lines 678-682: if the start date is still falsy, synthesise one from any
bare four-digit year in the block. -/
def blockStart (O : JobOracles) (blk : String) : Option String :=
  let s0 := (blockDates O blk).1
  if truthyOpt s0 = false then
    match O.yearSearch blk with
    | some y => some (y ++ "-01-01")
    | none => s0
  else s0

def isBulletOrSpace (c : Char) : Bool := c = '•' || c = ' '

/-- Python l.strip(bullet-space) - both end characters from that two-character
set removed. -/
def stripBullet (s : String) : String :=
  ⟨((s.data.dropWhile isBulletOrSpace).reverse.dropWhile isBulletOrSpace).reverse⟩

/-- Line 695: the first two non-empty lines after the first, bullets
stripped. -/
def blockDescription (blk : String) : String :=
  String.intercalate " "
    (((((splitLines blk).drop 1).filter fun l => pyStrip l ≠ "").map
        fun l => pyStrip (stripBullet l)).take 2)

/-- Lines 687-708: the record built for a block that passed the date guard. -/
def blockBody (O : JobOracles) (blk : String) : ExperienceEntry :=
  let title := pyStrip ((O.titleMatch blk).getD "")
  let company :=
    match O.companySearch blk with
    | some c => pyStrip c
    | none => "Company not specified"
  let description := blockDescription blk
  { company := company
    position := if title = "" then "Position not specified" else title
    location := ""
    start_date := blockStart O blk
    end_date := (blockDates O blk).2.1
    current := (blockDates O blk).2.2
    description := description
    skills := O.skillsFromDesc description
    employment_type :=
      if strContains (strLower title) "intern" then "Internship" else "Full-time" }

/-- One iteration of the block loop: the guard on line 684 skips any block
whose start date is still falsy. -/
def processBlock (O : JobOracles) (blk : String) : Option ExperienceEntry :=
  if truthyOpt (blockStart O blk) = true then some (blockBody O blk) else none

/-- extract_job_entries (app.py lines 638-710): each split block is stripped,
empty blocks are skipped, and the per-block extraction appends at most one
record. -/
def extract_job_entries (O : JobOracles) (exp_text : String) : List ExperienceEntry :=
  (O.splitBlocks exp_text).flatMap fun b =>
    if pyStrip b = "" then []
    else
      match processBlock O (pyStrip b) with
      | some e => [e]
      | none => []

/-- validate_and_clean_work_experience (app.py lines 1271-1289): keep entries
with a truthy company or position, strip those fields and default empty
ones. -/
def validate_and_clean_work_experience (work_experience : List ExperienceEntry) :
    List ExperienceEntry :=
  work_experience.filterMap fun exp =>
    if exp.company ≠ "" ∨ exp.position ≠ "" then
      let company := pyStrip exp.company
      let position := pyStrip exp.position
      let location := pyStrip exp.location
      some { exp with
        company := if company = "" then "Company not specified" else company
        position := if position = "" then "Position not specified" else position
        location := location }
    else none

/-- parse_with_basic_fallback (app.py lines 1066-1099): keyword-presence
placeholders, with null dates. -/
def parse_with_basic_fallback (resume_text : String) :
    List EducationEntry × List ExperienceEntry :=
  let lower := strLower resume_text
  let education :=
    if ["university", "college", "degree", "bachelor", "master"].any
        (fun w => strContains lower w) then
      [⟨"Institution found in resume", "Degree mentioned in resume", "", none, none, false,
        "Extracted from resume text - please review and edit", "", ""⟩]
    else []
  let work_experience :=
    if ["developer", "engineer", "manager", "analyst", "experience"].any
        (fun w => strContains lower w) then
      [⟨"Company mentioned in resume", "Position found in resume", "", none, none, false,
        "Extracted from resume text - please review and edit", [], "Full-time"⟩]
    else []
  (education, work_experience)

/-! ## app.py : calculate_confidence (lines 1291-1304) -/

/-- Completeness test for an education record (Python truthiness of the three
fields on line 1297). -/
def eduComplete (e : EducationEntry) : Bool :=
  decide (e.institution ≠ "") && decide (e.degree ≠ "") && truthyOpt e.end_date

/-- Completeness test for a work record (line 1301). -/
def expComplete (e : ExperienceEntry) : Bool :=
  decide (e.company ≠ "") && decide (e.position ≠ "") && truthyOpt e.start_date

/-- calculate_confidence: base plus 0.05 per complete record, capped at
0.95. -/
def calculate_confidence (education : List EducationEntry)
    (work_experience : List ExperienceEntry) (base_confidence : ℚ) : ℚ :=
  min 0.95
    (work_experience.foldl (fun s e => if expComplete e then s + 0.05 else s)
      (education.foldl (fun s e => if eduComplete e then s + 0.05 else s) base_confidence))

/-! ## app.py : extract_sections header anchoring (lines 450-518)

Every section pattern of extract_sections begins with the anchor
start-or-newline, optional whitespace, a header keyword alternation, optional
whitespace, then newline-or-end.  The scanner below embeds that header
search: it walks the text once, maintaining whether the current position is
reachable from the start of a line through whitespace only, exactly as the
anchor group together with the whitespace star allows. -/

/-- Case-insensitive keyword prefix test (the patterns carry re.I). -/
def isPrefixCI : List Char → List Char → Bool
  | [], _ => true
  | _ :: _, [] => false
  | k :: ks, c :: cs => (Char.toLower c = k) && isPrefixCI ks cs

/-- The tail of a header match: optional whitespace then a newline or the end
of the text. -/
def wsThenBreak : List Char → Bool
  | [] => true
  | c :: cs => if c = '\n' then true else if isPySpace c then wsThenBreak cs else false

/-- A full header occurrence at this position: some keyword, followed by the
break tail. -/
def keyWithBreakAt (keys : List (List Char)) (cs : List Char) : Bool :=
  keys.any fun k => isPrefixCI k cs && wsThenBreak (cs.drop k.length)

/-- A bare keyword occurrence at this position (no tail condition): the sense
in which a section keyword occurs in running prose. -/
def keyOccursAt (keys : List (List Char)) (cs : List Char) : Bool :=
  keys.any fun k => isPrefixCI k cs

/-- The header search of extract_sections: `anch` records whether the anchor
group and whitespace star can reach the current position. -/
def scanHeader (keys : List (List Char)) : Bool → List Char → Bool
  | anch, [] => anch && keyWithBreakAt keys []
  | anch, c :: rest =>
    (anch && keyWithBreakAt keys (c :: rest)) ||
      scanHeader keys ((c = '\n') || (anch && isPySpace c)) rest

/-- Whether a position whose preceding text is `pre` is line-anchored: the
start of the text or a newline, followed only by whitespace. -/
def lineAnchored (pre : List Char) : Bool :=
  pre.foldl (fun a c => (c = '\n') || (a && isPySpace c)) true

/-- Whether some recognized header token of `keys` matches anywhere in the
text, line-anchored, as extract_sections requires before starting a
section. -/
def sectionHeaderFound (keys : List (List Char)) (text : String) : Bool :=
  scanHeader keys true text.data

/-- The experience-pattern header alternation (app.py line 475), lowered. -/
def experienceHeaderKeys : List (List Char) :=
  [("experience").data, ("work experience").data, ("employment").data,
   ("professional experience").data, ("career").data]

/-! ## Concrete instantiations used by witnesses -/

/-- Oracles whose float and fuzzy comparisons always fail. -/
def simO : SimOracles := ⟨fun _ _ => false, fun _ _ => false⟩

/-- Job oracles for a text whose only recoverable date is a bare year. -/
def jobO : JobOracles :=
  { splitBlocks := fun t => [t]
    rangeSearch := fun _ => none
    dateSearch := fun _ => none
    yearSearch := fun _ => some "2024"
    titleMatch := fun _ => none
    companySearch := fun _ => none
    skillsFromDesc := fun _ => []
    dp := dpNone }

/-- The entry extract_job_entries produces under `jobO`. -/
def witnessEntry : ExperienceEntry :=
  ⟨"Company not specified", "Position not specified", "", some "2024-01-01", none, false,
    "", [], "Full-time"⟩

/-- A complete education record for the confidence witness. -/
def eduW : EducationEntry :=
  ⟨"Seneca Polytechnic", "Bachelor of Software Development", "Software Development",
    some "2021-09-01", some "2025-06-01", false, "", "", ""⟩

/-! ## Helper lemmas -/

theorem containsSub_nil_needle (hay : List Char) : containsSub hay [] = true := by
  rw [containsSub, List.any_eq_true]
  exact ⟨0, List.mem_range.2 (Nat.succ_pos _), by simp [List.isPrefixOf]⟩

/-! ## Claim theorems -/

/-- C2: for every resume text, calculate_skill_score with an empty
required-skills list returns exactly (0, [], []), and for a non-empty list
the returned score is (matched count / required count) times 100, where the
matched count is the length of the returned matched list. -/
theorem skill_score_empty_and_ratio (O : SimOracles) (job_skills : List String)
    (resume_text : String) :
    calculate_skill_score O [] resume_text = (0, [], []) ∧
    (job_skills ≠ [] →
      (calculate_skill_score O job_skills resume_text).1 =
        ((calculate_skill_score O job_skills resume_text).2.1.length : ℚ) /
          (job_skills.length : ℚ) * 100) := by
  refine ⟨rfl, fun h => ?_⟩
  simp only [calculate_skill_score, if_neg h]

theorem skill_score_empty_and_ratio_witness :
    calculate_skill_score simO [] "any resume" = (0, [], []) ∧
    (calculate_skill_score simO ["python"] "knows python").1 =
      ((calculate_skill_score simO ["python"] "knows python").2.1.length : ℚ) /
        ((["python"] : List String).length : ℚ) * 100 :=
  ⟨(skill_score_empty_and_ratio simO ["x"] "any resume").1,
   (skill_score_empty_and_ratio simO ["python"] "knows python").2 (by simp)⟩

/-- C3: calculate_experience_score implements exactly the tier table of the
specification: requirement 0 scores 100, candidate at least required scores
100, within one year below scores 75, within two scores 50, otherwise 25,
where both figures come from the years extraction. -/
theorem experience_score_tiers (extract : String → ℕ) (job_experience resume_text : String) :
    (calculate_experience_score extract job_experience resume_text).1 =
      experienceTierSpec (if job_experience ≠ "" then extract job_experience else 0)
        (extract resume_text) := by
  simp only [calculate_experience_score, experienceTierSpec]
  split_ifs <;> rfl

/-- C4 helper: the family loop finds a hit exactly when some family both
occurs in the requirement and matches the resume. -/
theorem degreeLevelHit_isSome (jq rl : String) :
    (degreeLevelHit jq rl).isSome =
      degree_patterns.any fun fam =>
        strContains jq fam.1 && fam.2.any fun p => searchAtoms p none rl.data := by
  unfold degreeLevelHit
  generalize degree_patterns = l
  induction l with
  | nil => rfl
  | cons a t ih =>
    rw [List.findSome?_cons]
    by_cases h :
        (strContains jq a.1 && a.2.any fun p => searchAtoms p none rl.data) = true
    · rw [if_pos h, List.any_cons, h, Bool.true_or]
      rfl
    · rw [Bool.not_eq_true] at h
      rw [if_neg (by rw [h]; exact Bool.false_ne_true), List.any_cons, h, Bool.false_or]
      exact ih

/-- C4 helper: the intersection of the two filtered vocabularies is non-empty
exactly when some vocabulary word occurs in both texts. -/
theorem inter_filter_ne_nil (l : List String) (p q : String → Bool) :
    ((l.filter p) ∩ (l.filter q) ≠ []) ↔ (l.any fun a => p a && q a) = true := by
  rw [Ne, List.eq_nil_iff_forall_not_mem]
  push_neg
  constructor
  · rintro ⟨a, ha⟩
    rw [List.mem_inter_iff, List.mem_filter, List.mem_filter] at ha
    rw [List.any_eq_true]
    exact ⟨a, ha.1.1, by rw [Bool.and_eq_true]; exact ⟨ha.1.2, ha.2.2⟩⟩
  · intro h
    rw [List.any_eq_true] at h
    obtain ⟨a, ha, hpq⟩ := h
    rw [Bool.and_eq_true] at hpq
    exact ⟨a, by
      rw [List.mem_inter_iff, List.mem_filter, List.mem_filter]
      exact ⟨⟨ha, hpq.1⟩, ⟨ha, hpq.2⟩⟩⟩

/-- C4: calculate_qualification_score realises the cascade exactly as the
specification words it: exact lowered substring 100, degree-family hit 80,
field-of-study overlap 60, generic education keyword 40, otherwise 20, and a
blank requirement 100. -/
theorem qualification_score_cascade (job_qualification resume_text : String) :
    (calculate_qualification_score job_qualification resume_text).1 =
      qualificationSpecScore job_qualification resume_text := by
  unfold calculate_qualification_score qualificationSpecScore
  by_cases h1 : job_qualification = "" ∨ pyStrip job_qualification = ""
  · have h1s : pyStrip job_qualification = "" := by
      rcases h1 with h | h
      · rw [h]; rfl
      · exact h
    rw [if_pos h1, if_pos h1s]
  · have h1s : ¬pyStrip job_qualification = "" := fun hs => h1 (Or.inr hs)
    rw [if_neg h1, if_neg h1s]
    by_cases h2 : strContains (strLower resume_text) (strLower job_qualification) = true
    · rw [if_pos h2, if_pos h2]
    · rw [if_neg h2, if_neg h2]
      cases hd : degreeLevelHit (strLower job_qualification) (strLower resume_text) with
      | some dt =>
        have hany : (degree_patterns.any fun fam =>
            strContains (strLower job_qualification) fam.1 &&
              fam.2.any fun p => searchAtoms p none (strLower resume_text).data) = true := by
          rw [← degreeLevelHit_isSome, hd]
          rfl
        rw [if_pos hany]
      | none =>
        have hany : ¬(degree_patterns.any fun fam =>
            strContains (strLower job_qualification) fam.1 &&
              fam.2.any fun p => searchAtoms p none (strLower resume_text).data) = true := by
          rw [← degreeLevelHit_isSome, hd]
          simp
        rw [if_neg hany]
        by_cases h4 :
            ((fields.filter fun f => strContains (strLower job_qualification) f) ∩
              (fields.filter fun f => strContains (strLower resume_text) f)) ≠ []
        · rw [if_pos h4]
          rw [inter_filter_ne_nil fields
            (fun f => strContains (strLower job_qualification) f)
            (fun f => strContains (strLower resume_text) f)] at h4
          rw [if_pos h4]
        · rw [if_neg h4]
          rw [inter_filter_ne_nil fields
            (fun f => strContains (strLower job_qualification) f)
            (fun f => strContains (strLower resume_text) f)] at h4
          rw [if_neg h4]
          by_cases h5 :
              (education_keywords.any fun k => strContains (strLower resume_text) k) = true
          · rw [if_pos h5, if_pos h5]
          · rw [if_neg h5, if_neg h5]

/-- C8: the two empty-requirement conventions disagree: calculate_tech_fit
scores an empty tool list 100 while calculate_skill_score scores an empty
skill list 0, on every resume text. -/
theorem empty_requirement_conventions_disagree (O : SimOracles) (resume_text : String) :
    calculate_tech_fit O [] resume_text = (100, [], []) ∧
    calculate_skill_score O [] resume_text = (0, [], []) :=
  ⟨rfl, rfl⟩

/-- C7 helper: the confidence loop adds the bonus once per record satisfying
the completeness test. -/
theorem foldl_bonus {α : Type} (p : α → Bool) (c : ℚ) :
    ∀ (l : List α) (s : ℚ),
      l.foldl (fun s e => if p e then s + c else s) s = s + c * (l.countP p : ℚ)
  | [], s => by simp
  | a :: t, s => by
    by_cases h : p a = true
    · rw [List.foldl_cons, if_pos h, foldl_bonus p c t, List.countP_cons, if_pos h]
      push_cast
      ring
    · rw [List.foldl_cons, if_neg h, foldl_bonus p c t, List.countP_cons, if_neg h]
      push_cast
      ring

/-- C7: calculate_confidence stays within [0, 0.95] for every base confidence
in [0, 1], and equals the base plus 0.05 per complete education or work
record, capped at 0.95. -/
theorem calculate_confidence_bounds (education : List EducationEntry)
    (work_experience : List ExperienceEntry) (base : ℚ)
    (h0 : 0 ≤ base) (_h1 : base ≤ 1) :
    calculate_confidence education work_experience base ≤ 0.95 ∧
    0 ≤ calculate_confidence education work_experience base ∧
    calculate_confidence education work_experience base =
      min 0.95 (base + 0.05 * ((education.countP eduComplete : ℚ) +
        (work_experience.countP expComplete : ℚ))) := by
  have hval : calculate_confidence education work_experience base =
      min 0.95 (base + 0.05 * ((education.countP eduComplete : ℚ) +
        (work_experience.countP expComplete : ℚ))) := by
    unfold calculate_confidence
    rw [foldl_bonus eduComplete 0.05 education base,
      foldl_bonus expComplete 0.05 work_experience _]
    congr 1
    ring
  refine ⟨?_, ?_, hval⟩
  · rw [hval]; exact min_le_left _ _
  · rw [hval]
    apply le_min (by norm_num)
    have hc1 : (0 : ℚ) ≤ (education.countP eduComplete : ℚ) := Nat.cast_nonneg _
    have hc2 : (0 : ℚ) ≤ (work_experience.countP expComplete : ℚ) := Nat.cast_nonneg _
    nlinarith

theorem calculate_confidence_bounds_witness :
    calculate_confidence [eduW] [witnessEntry] (1 / 2) ≤ 0.95 ∧
    0 ≤ calculate_confidence [eduW] [witnessEntry] (1 / 2) ∧
    calculate_confidence [eduW] [witnessEntry] (1 / 2) =
      min 0.95 ((1 / 2) + 0.05 * ((List.countP eduComplete [eduW] : ℚ) +
        (List.countP expComplete [witnessEntry] : ℚ))) :=
  calculate_confidence_bounds [eduW] [witnessEntry] (1 / 2) (by norm_num) (by norm_num)

/-- C5 (amended): on the two example inputs the range splitting and the
present flag behave as claimed, but the day field of each parsed date is the
current day of month (the dateutil default, clamped to the month length),
not 01; the claimed outputs arise exactly when the parse runs on the first
day of a month. -/
theorem parse_date_range_day_default (d : ℕ) (_h1 : 1 ≤ d) (h2 : d ≤ 31) :
    parse_date_range (dateutil_parse_month_year d) "April 2025 - Present" =
      (some ("2025-04-" ++ pad2 (min d 30)), none, true) ∧
    parse_date_range (dateutil_parse_month_year d) "Jan 2020 - Dec 2022" =
      (some ("2020-01-" ++ pad2 d), some ("2022-12-" ++ pad2 d), false) := by
  have hm : min d 31 = d := Nat.min_eq_left h2
  refine ⟨rfl, ?_⟩
  have h : parse_date_range (dateutil_parse_month_year d) "Jan 2020 - Dec 2022" =
      (some ("2020-01-" ++ pad2 (min d 31)), some ("2022-12-" ++ pad2 (min d 31)), false) := rfl
  rw [hm] at h
  exact h

theorem parse_date_range_day_default_witness :
    parse_date_range (dateutil_parse_month_year 1) "April 2025 - Present" =
      (some "2025-04-01", none, true) ∧
    parse_date_range (dateutil_parse_month_year 1) "Jan 2020 - Dec 2022" =
      (some "2020-01-01", some "2022-12-01", false) := by
  have h := parse_date_range_day_default 1 (by norm_num) (by norm_num)
  exact ⟨h.1.trans (by decide), h.2.trans (by decide)⟩

/-- C5 counterexample: run on the fifteenth of a month, the first example
input does not produce the claimed start date 2025-04-01. -/
theorem parse_date_range_mid_month_counterexample :
    parse_date_range (dateutil_parse_month_year 15) "April 2025 - Present" ≠
      (some "2025-04-01", none, true) := by decide

/-- C9 (amended): parse_single_date is total - it returns none or a string
and models every library failure as none; empty input and tokens containing
present or current in any case yield none; when the result is a string it is
either a library-produced ISO date or the input suffixed with -01-01, the
latter being ISO only when the input is exactly a four-digit year. -/
theorem parse_single_date_total (dp : String → Option String)
    (hdp : ∀ t r, dp t = some r → isIsoFormat r = true) (s : String) :
    ((s = "" ∨ strContains (strLower s) "present" = true ∨
        strContains (strLower s) "current" = true) → parse_single_date dp s = none) ∧
    (parse_single_date dp s = none ∨
      ∃ r, parse_single_date dp s = some r ∧
        (isIsoFormat r = true ∨ r = s ++ "-01-01")) := by
  unfold parse_single_date
  by_cases hg : s = "" ∨ strContains (strLower s) "present" = true ∨
      strContains (strLower s) "current" = true
  · rw [if_pos hg]
    exact ⟨fun _ => rfl, Or.inl rfl⟩
  · rw [if_neg hg]
    refine ⟨fun h => absurd h hg, ?_⟩
    by_cases h2 : matchWordSpaceYear s = true
    · rw [if_pos h2]
      cases hr : dp s with
      | none => exact Or.inl rfl
      | some r => exact Or.inr ⟨r, rfl, Or.inl (hdp s r hr)⟩
    · rw [if_neg h2]
      by_cases h3 : leadingYear s = true
      · rw [if_pos h3]
        exact Or.inr ⟨s ++ "-01-01", rfl, Or.inr rfl⟩
      · rw [if_neg h3]
        cases hr : dp s with
        | none => exact Or.inl rfl
        | some r => exact Or.inr ⟨r, rfl, Or.inl (hdp s r hr)⟩

theorem parse_single_date_total_witness :
    ((("PRESENT" : String) = "" ∨ strContains (strLower "PRESENT") "present" = true ∨
        strContains (strLower "PRESENT") "current" = true) →
      parse_single_date dpNone "PRESENT" = none) ∧
    (parse_single_date dpNone "PRESENT" = none ∨
      ∃ r, parse_single_date dpNone "PRESENT" = some r ∧
        (isIsoFormat r = true ∨ r = "PRESENT" ++ "-01-01")) :=
  parse_single_date_total dpNone (fun t r h => by simp [dpNone] at h) "PRESENT"

/-- C9 counterexample: the token 2025abc is returned as 2025abc-01-01, a
defined string that is not an ISO-format date - so the claim that every
non-none result is ISO-format fails. -/
theorem parse_single_date_noniso_counterexample :
    parse_single_date dpNone "2025abc" = some "2025abc-01-01" ∧
    isIsoFormat "2025abc-01-01" = false :=
  ⟨by decide, by decide⟩

/-- C10: the empty skill string is a substring of every lowered resume, so
skill_similarity accepts it on any text, and calculate_skill_score therefore
counts an empty-string requirement as matched, scoring 100. -/
theorem empty_skill_always_matches (O : SimOracles) (resume_text : String) :
    skill_similarity O "" resume_text = true ∧
    calculate_skill_score O [""] resume_text = (100, [""], []) := by
  have hc : strContains (strLower resume_text) (pyStrip (strLower "")) = true :=
    containsSub_nil_needle (strLower resume_text).data
  have h1 : skill_similarity O "" resume_text = true := by
    simp [skill_similarity, hc]
  refine ⟨h1, ?_⟩
  simp [calculate_skill_score, List.partition_eq_filter_filter, List.filter_cons, h1]

/-- C1 helper: a block that survives the guard has a truthy start date. -/
theorem processBlock_start_truthy (O : JobOracles) (blk : String) (e : ExperienceEntry)
    (h : processBlock O blk = some e) : truthyOpt e.start_date = true := by
  unfold processBlock at h
  by_cases hc : truthyOpt (blockStart O blk) = true
  · rw [if_pos hc] at h
    injection h with h
    subst h
    exact hc
  · rw [if_neg hc] at h
    exact absurd h (by simp)

/-- C1 helper: every entry produced by extract_job_entries has a truthy start
date - the guard discards every block whose date recovery failed. -/
theorem extract_job_entries_start_truthy (O : JobOracles) (exp_text : String) :
    ∀ e ∈ extract_job_entries O exp_text, truthyOpt e.start_date = true := by
  intro e he
  unfold extract_job_entries at he
  rw [List.mem_flatMap] at he
  obtain ⟨b, _, hb⟩ := he
  by_cases hblk : pyStrip b = ""
  · rw [if_pos hblk] at hb
    exact absurd hb (List.not_mem_nil e)
  · rw [if_neg hblk] at hb
    cases hp : processBlock O (pyStrip b) with
    | none =>
      rw [hp] at hb
      exact absurd hb (List.not_mem_nil e)
    | some e2 =>
      rw [hp] at hb
      rw [List.mem_singleton] at hb
      subst hb
      exact processBlock_start_truthy O (pyStrip b) e hp

/-- C1 helper: the validation pass never changes a start date - each kept
entry copies it from some raw entry. -/
theorem validate_preserves_start (l : List ExperienceEntry) :
    ∀ e ∈ validate_and_clean_work_experience l, ∃ a ∈ l, e.start_date = a.start_date := by
  intro e he
  unfold validate_and_clean_work_experience at he
  rw [List.mem_filterMap] at he
  obtain ⟨a, ha, hfa⟩ := he
  refine ⟨a, ha, ?_⟩
  by_cases hc : a.company ≠ "" ∨ a.position ≠ ""
  · rw [if_pos hc] at hfa
    injection hfa with hfa
    subst hfa
    rfl
  · rw [if_neg hc] at hfa
    exact absurd hfa (by simp)

/-- C1 (amended): every experience entry produced by extract_job_entries -
hence by the date-driven fixed-section strategy after cleanup - has a present
(non-null) start date, for every behaviour of the regex searches and of the
date library.  The claim fails for the basic fallback strategy (see its
counterexample), which emits a placeholder entry whose start date is null. -/
theorem cleaned_job_entries_have_start_date (O : JobOracles) (exp_text : String)
    (e : ExperienceEntry)
    (h : e ∈ validate_and_clean_work_experience (extract_job_entries O exp_text)) :
    e.start_date ≠ none := by
  obtain ⟨a, ha, hs⟩ := validate_preserves_start (extract_job_entries O exp_text) e h
  have ht := extract_job_entries_start_truthy O exp_text a ha
  rw [hs]
  cases hna : a.start_date with
  | none =>
    rw [hna] at ht
    exact absurd ht (by simp [truthyOpt])
  | some s => simp

theorem cleaned_job_entries_have_start_date_witness :
    witnessEntry.start_date ≠ none :=
  cleaned_job_entries_have_start_date jobO "Engineer 2024" witnessEntry (by decide)

/-- C1 counterexample: on a resume whose only career signal is the word
developer, the basic fallback strategy emits one work-experience entry, and
its start date is null even after the validation pass - so the claimed
invariant does not hold for the basic fallback strategy. -/
theorem basic_fallback_entry_lacks_start_date :
    ((validate_and_clean_work_experience (parse_with_basic_fallback "a developer").2).map
      ExperienceEntry.start_date) = [none] := by decide

/-- C6 helper: a full header occurrence is in particular a bare keyword
occurrence. -/
theorem keyWithBreak_imp_occurs (keys : List (List Char)) (cs : List Char)
    (h : keyWithBreakAt keys cs = true) : keyOccursAt keys cs = true := by
  rw [keyWithBreakAt, List.any_eq_true] at h
  obtain ⟨k, hk, hkk⟩ := h
  rw [Bool.and_eq_true] at hkk
  rw [keyOccursAt, List.any_eq_true]
  exact ⟨k, hk, hkk.1⟩

/-- C6 helper: no non-empty keyword matches at the end of the text. -/
theorem keyWithBreak_nil (keys : List (List Char)) (hk : ∀ k ∈ keys, k ≠ []) :
    keyWithBreakAt keys [] = false := by
  rw [keyWithBreakAt, List.any_eq_false]
  intro k hkm
  cases hke : k with
  | nil => exact absurd hke (hk k hkm)
  | cons c ks => simp [isPrefixCI]

/-- C6 helper: extending the prefix by one character updates the anchor state
exactly as the scanner does. -/
theorem lineAnchored_append (pre : List Char) (c : Char) :
    lineAnchored (pre ++ [c]) =
      ((decide (c = '\n')) || (lineAnchored pre && isPySpace c)) := by
  unfold lineAnchored
  rw [List.foldl_append]
  rfl

/-- C6 helper: if every bare keyword occurrence in the remaining text sits at
a position that is not line-anchored, the header scanner fails. -/
theorem scanHeader_eq_false (keys : List (List Char)) (hk : ∀ k ∈ keys, k ≠ []) :
    ∀ (cs pre : List Char),
      (∀ i, i ≤ cs.length → keyOccursAt keys (cs.drop i) = true →
        lineAnchored (pre ++ cs.take i) = false) →
      scanHeader keys (lineAnchored pre) cs = false
  | [], pre, h => by
    simp only [scanHeader]
    rw [keyWithBreak_nil keys hk, Bool.and_false]
  | c :: rest, pre, h => by
    simp only [scanHeader]
    have h0 : (lineAnchored pre && keyWithBreakAt keys (c :: rest)) = false := by
      by_cases hkey : keyWithBreakAt keys (c :: rest) = true
      · have hocc := keyWithBreak_imp_occurs keys _ hkey
        have hanc := h 0 (Nat.zero_le _) (by simpa using hocc)
        simp only [List.take_zero, List.append_nil] at hanc
        rw [hanc, Bool.false_and]
      · rw [Bool.not_eq_true] at hkey
        rw [hkey, Bool.and_false]
    rw [h0, Bool.false_or]
    have hrec : scanHeader keys (lineAnchored (pre ++ [c])) rest = false := by
      apply scanHeader_eq_false keys hk rest (pre ++ [c])
      intro i hi hocc
      have hstep := h (i + 1) (by simpa using Nat.succ_le_succ hi)
        (by rw [List.drop_succ_cons]; exact hocc)
      rw [List.take_succ_cons] at hstep
      rw [List.append_assoc, List.singleton_append]
      exact hstep
    rw [lineAnchored_append] at hrec
    exact hrec

/-- C6: if every occurrence of a recognized section keyword in the text is
mid-sentence - some non-whitespace character stands between it and the start
of its line, so the position is not line-anchored - then the header search of
extract_sections finds no header, and no section starts at any such
occurrence. -/
theorem midline_keyword_no_header (keys : List (List Char)) (text : String)
    (hk : ∀ k ∈ keys, k ≠ [])
    (hmid : ∀ i, i ≤ text.data.length → keyOccursAt keys (text.data.drop i) = true →
      lineAnchored (text.data.take i) = false) :
    sectionHeaderFound keys text = false := by
  have h := scanHeader_eq_false keys hk text.data []
    (fun i hi hocc => by simpa using hmid i hi hocc)
  rw [sectionHeaderFound]
  rw [show lineAnchored [] = true from rfl] at h
  exact h

theorem midline_keyword_no_header_witness :
    sectionHeaderFound experienceHeaderKeys "Ten years of experience in Java and Go" = false :=
  midline_keyword_no_header experienceHeaderKeys "Ten years of experience in Java and Go"
    (by decide) (by decide)

/-! ## Sanity evaluations

Concrete evaluations of the embedded functions on the examples the
specification quotes, checking that the definitions compute. -/

example : experienceTierSpec 5 5 = 100 ∧ experienceTierSpec 5 4 = 75 ∧
    experienceTierSpec 5 3 = 50 ∧ experienceTierSpec 5 1 = 25 := by decide

example : sectionHeaderFound experienceHeaderKeys "Summary\nEXPERIENCE\nAcme Corp" = true := by
  decide

example : (calculate_qualification_score "Bachelor" "B.Sc. in Computing, Acme University").1 =
    80 := by decide

example : (calculate_qualification_score "Bachelor of Science"
    "studied at a community program").1 = 40 := by decide

example : parse_single_date dpNone "2025" = some "2025-01-01" := by decide

example : skill_similarity simO "JS" "experienced in javascript development" = true := by decide

end Ats
